import Mathlib

/-!
# OLED display manager (`src/OLED.cpp`): shallow embedding and verified properties

The class `OLED` wraps an Adafruit SSD1306 driver object.  The embedding keeps
the three member fields of the class and the two file-level statics
(`debugLines`, `lastDebugDraw`) in one `State` record.  Everything the code does
to the outside world (bus handshakes, driver calls, serial debug output,
allocation and release of the driver object) is appended to `State.trace`, in
program order.

Inputs that come from the hardware are explicit arguments:
* `wire a` is the status `Wire.endTransmission()` returns after
  `Wire.beginTransmission(a)` (0 means the device acknowledged);
* `startup` is the result of the driver's own `begin(...)`;
* `now` is the value `millis()` returns.

Machine integers are naturals or integers with the conversions written out
(`u8`, `u16`, `u32`, `i16`).  C strings are lists of characters, and a nullable
`const char*` is an `Option`.

`OLED::setupOLED` (a fixed start-up screen with delays) and the destructor are
not embedded; no property below concerns them.
-/

namespace OLED

/-- C string contents (without the terminating NUL). -/
abbrev CStr := List Char

/-! ## Integer conversions -/

/-- Conversion to `uint8_t`. -/
def u8 (n : Nat) : Nat := n % 256

/-- Conversion to `uint16_t`. -/
def u16 (n : Nat) : Nat := n % 65536

/-- Conversion to `unsigned long` (32 bits on the Teensy 4.1). -/
def u32 (n : Nat) : Nat := n % 4294967296

/-- Conversion to `int16_t` (two's complement wrap). -/
def i16 (z : Int) : Int := (z + 32768) % 65536 - 32768

/-- Subtraction of two `unsigned long` values, as the hardware does it. -/
def u32sub (a b : Nat) : Nat := (u32 a + (4294967296 - u32 b)) % 4294967296

/-! ## Constants -/

/-- Adafruit_SSD1306.h: pixel colour black. -/
def SSD1306_BLACK : Nat := 0
/-- Adafruit_SSD1306.h: pixel colour white. -/
def SSD1306_WHITE : Nat := 1
/-- Adafruit_SSD1306.h: contrast command byte. -/
def SSD1306_SETCONTRAST : Nat := 0x81
/-- Adafruit_SSD1306.h: display-off command byte. -/
def SSD1306_DISPLAYOFF : Nat := 0xAE
/-- Adafruit_SSD1306.h: display-on command byte. -/
def SSD1306_DISPLAYON : Nat := 0xAF
/-- Adafruit_SSD1306.h: charge-pump selection passed to the driver start-up. -/
def SSD1306_SWITCHCAPVCC : Nat := 0x02

/-- OLED.cpp line 418: `#define MAX_DEBUG_LINES 5`. -/
abbrev MAX_DEBUG_LINES : Nat := 5

/-- OLED.cpp line 421: `debugDrawInterval = 200` (milliseconds). -/
def debugDrawInterval : Nat := 200

/-- The constants `OLED.cpp` takes from its header `OLED.h`, which is not among
the sources, and the one C-library service that lies outside the embedding.
They are parameters of every definition below.

* `clearLineTextSize` is the default value of `clearLine`'s second parameter
  (declared in the header, used wherever the code calls `clearLine(line)`);
* `float2f bits` is the text the C library prints for the `float` with
  IEEE-754 bit pattern `bits` under the directive `%.2f`. -/
structure Config where
  OLED_ADDR_PRIMARY : Nat
  OLED_ADDR_SECONDARY : Nat
  SCREEN_WIDTH : Nat
  SCREEN_HEIGHT : Nat
  OLED_RESET : Int
  TEXT_SIZE_SMALL : Nat
  TEXT_SIZE_MEDIUM : Nat
  CHAR_HEIGHT_SMALL : Nat
  clearLineTextSize : Nat
  float2f : Nat → CStr

/-- Modelled from the spec: the values of the `OLED.h` constants on the
reference device.  The spec fixes the canvas at 128x64 pixels with 8 text rows
(so a row is 8 pixels high) and the smallest text size as the row style; the
source comments agree ("128x64 SSD1306", lines "0-7 for small text", text size
"1, 2, or 3").  The two bus addresses are the customary SSD1306 ones; they
are used only where a statement is evaluated on this device. -/
def refConfig : Config where
  OLED_ADDR_PRIMARY := 0x3C
  OLED_ADDR_SECONDARY := 0x3D
  SCREEN_WIDTH := 128
  SCREEN_HEIGHT := 64
  OLED_RESET := -1
  TEXT_SIZE_SMALL := 1
  TEXT_SIZE_MEDIUM := 2
  CHAR_HEIGHT_SMALL := 8
  clearLineTextSize := 1
  float2f := fun _ => []

/-! ## Formatted output (`vsnprintf`) -/

/-- A variadic argument, after the default argument promotions. -/
inductive Arg where
  | str (s : Option CStr)
  | int (i : Int)
  | ulong (n : Nat)
  | dbl (bits : Nat)
deriving DecidableEq

/-- Decimal digits of an unsigned value. -/
def fmtUnsigned (n : Nat) : CStr := Nat.toDigits 10 n

/-- Left padding with `0` up to a minimum field width. -/
def fmtZeroPad (width : Nat) (ds : CStr) : CStr :=
  List.replicate (width - ds.length) '0' ++ ds

/-- Decimal text of a signed value (`%d`). -/
def fmtSigned (i : Int) : CStr :=
  if i < 0 then '-' :: fmtUnsigned i.natAbs else fmtUnsigned i.natAbs

/-- Text of a string argument (`%s`); newlib prints `(null)` for a null pointer. -/
def fmtStr : Option CStr → CStr
  | some s => s
  | none => "(null)".toList

/-- The C library's formatting, for the directives this file uses: `%s`, `%d`,
`%.2f` and `%02lu`.  Any other character is copied. -/
def vformat (f2 : Nat → CStr) : CStr → List Arg → CStr
  | '%' :: 's' :: rest, Arg.str s :: args => fmtStr s ++ vformat f2 rest args
  | '%' :: 'd' :: rest, Arg.int i :: args => fmtSigned i ++ vformat f2 rest args
  | '%' :: '.' :: '2' :: 'f' :: rest, Arg.dbl x :: args => f2 x ++ vformat f2 rest args
  | '%' :: '0' :: '2' :: 'l' :: 'u' :: rest, Arg.ulong n :: args =>
      fmtZeroPad 2 (fmtUnsigned n) ++ vformat f2 rest args
  | c :: rest, args => c :: vformat f2 rest args
  | [], _ => []

/-- Formatting into a buffer of `size` bytes: at most `size - 1` characters are
kept (the last byte holds the terminator). -/
def vsnprintf (f2 : Nat → CStr) (size : Nat) (format : CStr) (args : List Arg) : CStr :=
  (vformat f2 format args).take (size - 1)

/-! ## State and trace -/

/-- The driver object created by `new Adafruit_SSD1306(w, h, &Wire, rst)`. -/
structure Handle where
  width : Nat
  height : Nat
  rst : Int
deriving DecidableEq

/-- One externally visible action of the code. -/
inductive Event where
  | debugPrint (msg : CStr)
  | debugPrintf (format : CStr) (args : List Arg)
  | wireBeginTransmission (address : Nat)
  | wireEndTransmission (status : Nat)
  | driverNew (w h : Nat) (rst : Int)
  | driverDelete
  | driverBegin (vcc address : Nat) (ok : Bool)
  | clearDisplay
  | display
  | ssd1306_command (c : Nat)
  | invertDisplay (b : Bool)
  | cp437 (b : Bool)
  | setCursor (x y : Int)
  | setTextSize (s : Nat)
  | setTextColor (c : Nat)
  | print (s : CStr)
  | println (s : CStr)
  | drawLine (x0 y0 x1 y1 : Int) (color : Nat)
  | drawRect (x y w h : Int) (color : Nat)
  | fillRect (x y w h : Int) (color : Nat)
  | drawCircle (x y r : Int) (color : Nat)
  | fillCircle (x y r : Int) (color : Nat)
deriving DecidableEq

/-- Members of the `OLED` object, the two file-level statics of the debug line
buffer, and the trace of external actions. -/
structure State where
  oledDisplay : Option Handle
  i2cAddress : Nat
  displayInitialized : Bool
  debugLines : Fin MAX_DEBUG_LINES → CStr
  lastDebugDraw : Nat
  trace : List Event

/-- State after the constructor `OLED::OLED()`, with the statics at their
initial values (empty strings, 0) and an empty trace. -/
def init : State where
  oledDisplay := none
  i2cAddress := 0
  displayInitialized := false
  debugLines := fun _ => []
  lastDebugDraw := 0
  trace := []

/-- Append one external action to the trace. -/
def emit (e : Event) (st : State) : State :=
  { st with trace := st.trace ++ [e] }

/-! ## Initialization -/

/-- `OLED::testAddress`: a zero-length transmission to `address`; the device is
there when `Wire.endTransmission()` returns 0. -/
def testAddress (wire : Nat → Nat) (address : Nat) (st : State) : Bool × State :=
  let st1 := emit (.wireBeginTransmission (u8 address)) st
  let status := wire (u8 address)
  (status == 0, emit (.wireEndTransmission status) st1)

/-- `OLED::begin()`: auto-detection at the primary, then the secondary address,
followed by creation and start-up of the driver object. -/
def begin (cfg : Config) (wire : Nat → Nat) (startup : Bool) (st : State) : Bool × State :=
  let st := emit (.debugPrint "[OLED] Auto-detecting display address...".toList) st
  let p := testAddress wire cfg.OLED_ADDR_PRIMARY st
  let found : Bool × State :=
    if p.1 then
      let st := { p.2 with i2cAddress := u8 cfg.OLED_ADDR_PRIMARY }
      (true, emit (.debugPrintf "[OLED] Display found at primary address 0x%02X".toList
        [.int st.i2cAddress]) st)
    else
      let s := testAddress wire cfg.OLED_ADDR_SECONDARY p.2
      if s.1 then
        let st := { s.2 with i2cAddress := u8 cfg.OLED_ADDR_SECONDARY }
        (true, emit (.debugPrintf "[OLED] Display found at secondary address 0x%02X".toList
          [.int st.i2cAddress]) st)
      else
        (false, emit (.debugPrint "[OLED] ERROR: No display found at any address".toList) s.2)
  if !found.1 then (false, found.2)
  else
    let st := found.2
    let st := emit (.driverNew cfg.SCREEN_WIDTH cfg.SCREEN_HEIGHT cfg.OLED_RESET)
      { st with oledDisplay := some ⟨cfg.SCREEN_WIDTH, cfg.SCREEN_HEIGHT, cfg.OLED_RESET⟩ }
    let st := emit (.driverBegin SSD1306_SWITCHCAPVCC st.i2cAddress startup) st
    if !startup then
      let st := emit (.debugPrint "[OLED] ERROR: SSD1306 allocation failed".toList) st
      let st := emit .driverDelete st
      (false, { st with oledDisplay := none })
    else
      let st := emit .clearDisplay st
      let st := emit (.setTextSize (u8 cfg.TEXT_SIZE_SMALL)) st
      let st := emit (.setTextColor SSD1306_WHITE) st
      let st := emit (.cp437 true) st
      let st := { st with displayInitialized := true }
      let st := emit (.debugPrint
        "[OLED] Display initialized successfully using Adafruit library".toList) st
      (true, st)

/-- `OLED::begin(uint8_t address)`: initialization at a caller-chosen address. -/
def beginAddress (cfg : Config) (wire : Nat → Nat) (startup : Bool) (address : Nat)
    (st : State) : Bool × State :=
  let address := u8 address
  let st := emit (.debugPrintf "[OLED] Initializing display at specified address 0x%02X".toList
    [.int address]) st
  let t := testAddress wire address st
  if t.1 then
    let st := { t.2 with i2cAddress := address }
    let st := emit (.driverNew cfg.SCREEN_WIDTH cfg.SCREEN_HEIGHT cfg.OLED_RESET)
      { st with oledDisplay := some ⟨cfg.SCREEN_WIDTH, cfg.SCREEN_HEIGHT, cfg.OLED_RESET⟩ }
    let st := emit (.driverBegin SSD1306_SWITCHCAPVCC st.i2cAddress startup) st
    if !startup then
      let st := emit (.debugPrint "[OLED] ERROR: SSD1306 allocation failed".toList) st
      let st := emit .driverDelete st
      (false, { st with oledDisplay := none })
    else
      let st := emit .clearDisplay st
      let st := emit (.setTextSize (u8 cfg.TEXT_SIZE_SMALL)) st
      let st := emit (.setTextColor SSD1306_WHITE) st
      let st := emit (.cp437 true) st
      let st := { st with displayInitialized := true }
      let st := emit (.debugPrint "[OLED] Display initialized successfully".toList) st
      (true, st)
  else
    (false, emit (.debugPrintf "[OLED] ERROR: No display found at address 0x%02X".toList
      [.int address]) t.2)

/-- `OLED::isInitialized`. -/
def isInitialized (st : State) : Bool := st.displayInitialized

/-- `OLED::getAddress`. -/
def getAddress (st : State) : Nat := st.i2cAddress

/-- `OLED::getDisplay`. -/
def getDisplay (st : State) : Option Handle := st.oledDisplay

/-! ## Display control -/

/-- `OLED::clear`. -/
def clear (st : State) : State :=
  if !st.displayInitialized || st.oledDisplay.isNone then st
  else emit .clearDisplay st

/-- `OLED::display`: push the buffer to the physical display (flush). -/
def display (st : State) : State :=
  if !st.displayInitialized || st.oledDisplay.isNone then st
  else emit .display st

/-- `OLED::setBrightness(uint8_t brightness)`. -/
def setBrightness (brightness : Nat) (st : State) : State :=
  if !st.displayInitialized || st.oledDisplay.isNone then st
  else
    let st := emit (.ssd1306_command SSD1306_SETCONTRAST) st
    let st := emit (.ssd1306_command (u8 brightness)) st
    emit (.debugPrintf "[OLED] Brightness set to %d".toList [.int (u8 brightness)]) st

/-- `OLED::setInverted(bool inverted)`. -/
def setInverted (inverted : Bool) (st : State) : State :=
  if !st.displayInitialized || st.oledDisplay.isNone then st
  else
    let st := emit (.invertDisplay inverted) st
    emit (.debugPrintf "[OLED] Display mode: %s".toList
      [.str (some (if inverted then "INVERTED".toList else "NORMAL".toList))]) st

/-- `OLED::powerOff`. -/
def powerOff (st : State) : State :=
  if !st.displayInitialized || st.oledDisplay.isNone then st
  else
    let st := emit (.ssd1306_command SSD1306_DISPLAYOFF) st
    emit (.debugPrint "[OLED] Display powered off".toList) st

/-- `OLED::powerOn`. -/
def powerOn (st : State) : State :=
  if !st.displayInitialized || st.oledDisplay.isNone then st
  else
    let st := emit (.ssd1306_command SSD1306_DISPLAYON) st
    emit (.debugPrint "[OLED] Display powered on".toList) st

/-! ## Text -/

/-- `OLED::setCursor(uint8_t x, uint8_t y)`. -/
def setCursor (x y : Nat) (st : State) : State :=
  if !st.displayInitialized || st.oledDisplay.isNone then st
  else emit (.setCursor (u8 x) (u8 y)) st

/-- `OLED::setTextSize(uint8_t size)`. -/
def setTextSize (size : Nat) (st : State) : State :=
  if !st.displayInitialized || st.oledDisplay.isNone then st
  else emit (.setTextSize (u8 size)) st

/-- `OLED::setTextColor(uint16_t color)`. -/
def setTextColor (color : Nat) (st : State) : State :=
  if !st.displayInitialized || st.oledDisplay.isNone then st
  else emit (.setTextColor (u16 color)) st

/-- `OLED::print(const char* text)`. -/
def print (text : Option CStr) (st : State) : State :=
  if !st.displayInitialized || st.oledDisplay.isNone || text.isNone then st
  else emit (.print (text.getD [])) st

/-- `OLED::println(const char* text)`. -/
def println (text : Option CStr) (st : State) : State :=
  if !st.displayInitialized || st.oledDisplay.isNone || text.isNone then st
  else emit (.println (text.getD [])) st

/-- `OLED::printf(const char* format, ...)`: formats into `char buffer[128]` and
prints the buffer. -/
def printf (cfg : Config) (format : Option CStr) (args : List Arg) (st : State) : State :=
  if !st.displayInitialized || st.oledDisplay.isNone || format.isNone then st
  else
    let buffer := vsnprintf cfg.float2f 128 (format.getD []) args
    emit (.print buffer) st

/-- `OLED::clearLine(uint8_t line, uint8_t textSize)`: a black rectangle over
the line. -/
def clearLine (cfg : Config) (line textSize : Nat) (st : State) : State :=
  if !st.displayInitialized || st.oledDisplay.isNone then st
  else
    let lineHeight : Int := i16 (cfg.CHAR_HEIGHT_SMALL * u8 textSize : Nat)
    let yPos : Int := i16 (u8 line * cfg.CHAR_HEIGHT_SMALL : Nat)
    emit (.fillRect 0 yPos (i16 cfg.SCREEN_WIDTH) lineHeight SSD1306_BLACK) st

/-! ## Variable display -/

/-- `OLED::showInt(const char* label, int value, uint8_t line)`. -/
def showInt (cfg : Config) (label : Option CStr) (value : Int) (line : Nat)
    (st : State) : State :=
  if !st.displayInitialized || st.oledDisplay.isNone then st
  else
    let st := clearLine cfg (u8 line) cfg.clearLineTextSize st
    let st := setCursor 0 (u8 line * cfg.CHAR_HEIGHT_SMALL) st
    let st := setTextSize cfg.TEXT_SIZE_SMALL st
    let st := setTextColor SSD1306_WHITE st
    printf cfg (some "%s: %d".toList) [.str label, .int value] st

/-- `OLED::showFloat(const char* label, float value, uint8_t line)`; the float
is given by its bit pattern. -/
def showFloat (cfg : Config) (label : Option CStr) (value : Nat) (line : Nat)
    (st : State) : State :=
  if !st.displayInitialized || st.oledDisplay.isNone then st
  else
    let st := clearLine cfg (u8 line) cfg.clearLineTextSize st
    let st := setCursor 0 (u8 line * cfg.CHAR_HEIGHT_SMALL) st
    let st := setTextSize cfg.TEXT_SIZE_SMALL st
    let st := setTextColor SSD1306_WHITE st
    printf cfg (some "%s: %.2f".toList) [.str label, .dbl value] st

/-- `OLED::showBool(const char* label, bool value, uint8_t line)`. -/
def showBool (cfg : Config) (label : Option CStr) (value : Bool) (line : Nat)
    (st : State) : State :=
  if !st.displayInitialized || st.oledDisplay.isNone then st
  else
    let st := clearLine cfg (u8 line) cfg.clearLineTextSize st
    let st := setCursor 0 (u8 line * cfg.CHAR_HEIGHT_SMALL) st
    let st := setTextSize cfg.TEXT_SIZE_SMALL st
    let st := setTextColor SSD1306_WHITE st
    printf cfg (some "%s: %s".toList)
      [.str label, .str (some (if value then "TRUE".toList else "FALSE".toList))] st

/-- `OLED::showString(const char* label, const char* value, uint8_t line)`. -/
def showString (cfg : Config) (label value : Option CStr) (line : Nat)
    (st : State) : State :=
  if !st.displayInitialized || st.oledDisplay.isNone then st
  else
    let st := clearLine cfg (u8 line) cfg.clearLineTextSize st
    let st := setCursor 0 (u8 line * cfg.CHAR_HEIGHT_SMALL) st
    let st := setTextSize cfg.TEXT_SIZE_SMALL st
    let st := setTextColor SSD1306_WHITE st
    printf cfg (some "%s: %s".toList)
      [.str label, .str (some (if value.isSome then value.getD [] else "NULL".toList))] st

/-! ## Status -/

/-- `OLED::showHeader(const char* title)`. -/
def showHeader (cfg : Config) (title : Option CStr) (st : State) : State :=
  if !st.displayInitialized || st.oledDisplay.isNone then st
  else
    let st := clearLine cfg 0 cfg.clearLineTextSize st
    let st := setCursor 0 0 st
    let st := setTextSize cfg.TEXT_SIZE_MEDIUM st
    let st := setTextColor SSD1306_WHITE st
    print title st

/-- `OLED::showStatus(const char* status)`. -/
def showStatus (cfg : Config) (status : Option CStr) (st : State) : State :=
  if !st.displayInitialized || st.oledDisplay.isNone then st
  else
    let st := clearLine cfg 7 cfg.clearLineTextSize st
    let st := setCursor 0 (7 * cfg.CHAR_HEIGHT_SMALL) st
    let st := setTextSize cfg.TEXT_SIZE_SMALL st
    let st := setTextColor SSD1306_WHITE st
    print status st

/-- `OLED::showTime(unsigned long milliseconds)`. -/
def showTime (cfg : Config) (milliseconds : Nat) (st : State) : State :=
  if !st.displayInitialized || st.oledDisplay.isNone then st
  else
    let seconds := u32 milliseconds / 1000
    let minutes := seconds / 60
    let hours := minutes / 60
    let seconds := seconds % 60
    let minutes := minutes % 60
    let hours := hours % 24
    let st := setCursor 70 0 st
    let st := setTextSize cfg.TEXT_SIZE_SMALL st
    let st := setTextColor SSD1306_WHITE st
    printf cfg (some "%02lu:%02lu:%02lu".toList) [.ulong hours, .ulong minutes, .ulong seconds] st

/-! ## Graphics -/

/-- `OLED::drawLine(int16_t x0, int16_t y0, int16_t x1, int16_t y1)`. -/
def drawLine (x0 y0 x1 y1 : Int) (st : State) : State :=
  if !st.displayInitialized || st.oledDisplay.isNone then st
  else emit (.drawLine (i16 x0) (i16 y0) (i16 x1) (i16 y1) SSD1306_WHITE) st

/-- `OLED::drawRect(int16_t x, int16_t y, int16_t w, int16_t h)`. -/
def drawRect (x y w h : Int) (st : State) : State :=
  if !st.displayInitialized || st.oledDisplay.isNone then st
  else emit (.drawRect (i16 x) (i16 y) (i16 w) (i16 h) SSD1306_WHITE) st

/-- `OLED::fillRect(int16_t x, int16_t y, int16_t w, int16_t h)`. -/
def fillRect (x y w h : Int) (st : State) : State :=
  if !st.displayInitialized || st.oledDisplay.isNone then st
  else emit (.fillRect (i16 x) (i16 y) (i16 w) (i16 h) SSD1306_WHITE) st

/-- `OLED::drawCircle(int16_t x, int16_t y, int16_t r)`. -/
def drawCircle (x y r : Int) (st : State) : State :=
  if !st.displayInitialized || st.oledDisplay.isNone then st
  else emit (.drawCircle (i16 x) (i16 y) (i16 r) SSD1306_WHITE) st

/-- `OLED::fillCircle(int16_t x, int16_t y, int16_t r)`. -/
def fillCircle (x y r : Int) (st : State) : State :=
  if !st.displayInitialized || st.oledDisplay.isNone then st
  else emit (.fillCircle (i16 x) (i16 y) (i16 r) SSD1306_WHITE) st

/-! ## Network address banner -/

/-- An `IPAddress`: four octets; `operator[]` yields a `uint8_t`. -/
structure IPAddress where
  octets : Fin 4 → Nat

/-- `IPAddress::operator[]`. -/
def IPAddress.get (ip : IPAddress) (i : Fin 4) : Nat := u8 (ip.octets i)

/-- `OLED::showIPAddress(IPAddress ip)`. -/
def showIPAddress (cfg : Config) (ip : IPAddress) (st : State) : State :=
  if !st.displayInitialized || st.oledDisplay.isNone then st
  else
    let st := clearLine cfg 0 cfg.clearLineTextSize st
    let st := setCursor 0 0 st
    let st := setTextSize cfg.TEXT_SIZE_SMALL st
    let st := setTextColor SSD1306_WHITE st
    let st := printf cfg (some "IP: %d.%d.%d.%d".toList)
      [.int (ip.get 0), .int (ip.get 1), .int (ip.get 2), .int (ip.get 3)] st
    display st

/-! ## Debug line buffer -/

/-- `OLED::addDebugLine(const char* text)`; `now` is what `millis()` returns
when the code reads it. -/
def addDebugLine (cfg : Config) (text : Option CStr) (now : Nat) (st : State) : State :=
  if !st.displayInitialized || st.oledDisplay.isNone || text.isNone then st
  else
    -- Shift lines up
    let lines := (List.range (MAX_DEBUG_LINES - 1)).foldl
      (fun (ls : Fin MAX_DEBUG_LINES → CStr) i =>
        if h : i + 1 < MAX_DEBUG_LINES then
          Function.update ls ⟨i, Nat.lt_of_succ_lt h⟩ (ls ⟨i + 1, h⟩)
        else ls)
      st.debugLines
    let lines := Function.update lines ⟨MAX_DEBUG_LINES - 1, by decide⟩ (text.getD [])
    let st := { st with debugLines := lines }
    -- Throttle refresh rate
    let now := u32 now
    if u32sub now st.lastDebugDraw < debugDrawInterval then st
    else
      let st := { st with lastDebugDraw := now }
      -- Draw bottom lines
      let st := (List.range MAX_DEBUG_LINES).foldl
        (fun (s : State) i =>
          let s := clearLine cfg (4 + i) cfg.clearLineTextSize s
          let s := setCursor 0 ((4 + i) * cfg.CHAR_HEIGHT_SMALL) s
          let s := setTextSize cfg.TEXT_SIZE_SMALL s
          let s := setTextColor SSD1306_WHITE s
          if h : i < MAX_DEBUG_LINES then emit (.print (s.debugLines ⟨i, h⟩)) s else s)
        st
      emit .display st

/-! ## Observations on traces and call sequences -/

/-- Addresses probed on the bus, in order, read off a trace. -/
def probes (tr : List Event) : List Nat :=
  tr.filterMap fun e =>
    match e with
    | .wireBeginTransmission a => some a
    | _ => none

/-- Number of driver objects allocated in a trace. -/
def allocations (tr : List Event) : Nat :=
  tr.countP fun e =>
    match e with
    | .driverNew _ _ _ => true
    | _ => false

/-- Texts handed to the driver's `print`, in order, read off a trace. -/
def printed (tr : List Event) : List CStr :=
  tr.filterMap fun e =>
    match e with
    | .print s => some s
    | _ => none

/-- Number of flushes (`oledDisplay->display()`) in a trace. -/
def flushes (tr : List Event) : Nat :=
  tr.countP fun e =>
    match e with
    | .display => true
    | _ => false

/-- The debug ring as a list, slot 0 first. -/
def ringList (st : State) : List CStr := List.ofFn st.debugLines

/-- A sequence of `addDebugLine` calls; each entry is the text of the call and
the `millis()` value the call reads. -/
def addDebugLines (cfg : Config) (calls : List (Option CStr × Nat)) (st : State) : State :=
  calls.foldl (fun s c => addDebugLine cfg c.1 c.2 s) st

/-- The `millis()` values of those calls of a sequence that flush the display,
that is, repaint the debug region. -/
def repaintTimes (cfg : Config) : List (Option CStr × Nat) → State → List Nat
  | [], _ => []
  | c :: rest, st =>
    if flushes st.trace < flushes (addDebugLine cfg c.1 c.2 st).trace then
      c.2 :: repaintTimes cfg rest (addDebugLine cfg c.1 c.2 st)
    else repaintTimes cfg rest (addDebugLine cfg c.1 c.2 st)

/-- A call of one of the operations other than the initializers, with its
arguments. -/
inductive Call where
  | clear
  | display
  | setBrightness (brightness : Nat)
  | setInverted (inverted : Bool)
  | powerOff
  | powerOn
  | setCursor (x y : Nat)
  | setTextSize (size : Nat)
  | setTextColor (color : Nat)
  | print (text : Option CStr)
  | println (text : Option CStr)
  | printf (format : Option CStr) (args : List Arg)
  | showInt (label : Option CStr) (value : Int) (line : Nat)
  | showFloat (label : Option CStr) (value : Nat) (line : Nat)
  | showBool (label : Option CStr) (value : Bool) (line : Nat)
  | showString (label value : Option CStr) (line : Nat)
  | showHeader (title : Option CStr)
  | showStatus (status : Option CStr)
  | showTime (milliseconds : Nat)
  | drawLine (x0 y0 x1 y1 : Int)
  | drawRect (x y w h : Int)
  | fillRect (x y w h : Int)
  | drawCircle (x y r : Int)
  | fillCircle (x y r : Int)
  | clearLine (line textSize : Nat)
  | showIPAddress (ip : IPAddress)
  | addDebugLine (text : Option CStr) (now : Nat)

/-- Execution of one call. -/
def Call.run (cfg : Config) : Call → State → State
  | .clear => OLED.clear
  | .display => OLED.display
  | .setBrightness b => OLED.setBrightness b
  | .setInverted b => OLED.setInverted b
  | .powerOff => OLED.powerOff
  | .powerOn => OLED.powerOn
  | .setCursor x y => OLED.setCursor x y
  | .setTextSize s => OLED.setTextSize s
  | .setTextColor c => OLED.setTextColor c
  | .print t => OLED.print t
  | .println t => OLED.println t
  | .printf f args => OLED.printf cfg f args
  | .showInt l v n => OLED.showInt cfg l v n
  | .showFloat l v n => OLED.showFloat cfg l v n
  | .showBool l v n => OLED.showBool cfg l v n
  | .showString l v n => OLED.showString cfg l v n
  | .showHeader t => OLED.showHeader cfg t
  | .showStatus s => OLED.showStatus cfg s
  | .showTime ms => OLED.showTime cfg ms
  | .drawLine x0 y0 x1 y1 => OLED.drawLine x0 y0 x1 y1
  | .drawRect x y w h => OLED.drawRect x y w h
  | .fillRect x y w h => OLED.fillRect x y w h
  | .drawCircle x y r => OLED.drawCircle x y r
  | .fillCircle x y r => OLED.fillCircle x y r
  | .clearLine l s => OLED.clearLine cfg l s
  | .showIPAddress ip => OLED.showIPAddress cfg ip
  | .addDebugLine t now => OLED.addDebugLine cfg t now

/-! ## Reference descriptions used in the statements

These follow the wording of the specification; the theorems compare them with
what the code above does. -/

/-- The guard at the top of every operation lets the call through. -/
def Ready (st : State) : Prop := st.displayInitialized = true ∧ st.oledDisplay.isNone = false

/-- A number below 100 as exactly two decimal digits. -/
def twoDigits (n : Nat) : CStr := [Char.ofNat (48 + n / 10), Char.ofNat (48 + n % 10)]

/-- The uptime text `HH:MM:SS` of a millisecond count, hours modulo 24. -/
def uptimeText (m : Nat) : CStr :=
  twoDigits (m / 3600000 % 24) ++ ':' :: (twoDigits (m / 60000 % 60) ++
    ':' :: twoDigits (m / 1000 % 60))

/-- Unpadded decimal text of a natural number. -/
def decimal (n : Nat) : CStr := (Nat.repr n).toList

/-- The banner text `IP: a.b.c.d`. -/
def ipText (a b c d : Nat) : CStr :=
  "IP: ".toList ++ decimal a ++ ".".toList ++ decimal b ++ ".".toList ++ decimal c ++
    ".".toList ++ decimal d

/-- The ring after one append: every slot takes the content of the next one and
the last slot takes the new line. -/
def pushLine (lines : Fin MAX_DEBUG_LINES → CStr) (text : CStr) : Fin MAX_DEBUG_LINES → CStr :=
  fun i => if h : i.val + 1 < MAX_DEBUG_LINES then lines ⟨i.val + 1, h⟩ else text

/-- Driver calls that draw ring slot `i` during a repaint: text row `4 + i` is
cleared and the slot is printed at the start of that row. -/
def slotEvents (cfg : Config) (lines : Fin MAX_DEBUG_LINES → CStr) (i : Fin MAX_DEBUG_LINES) :
    List Event :=
  [.fillRect 0 (i16 (u8 (4 + i.val) * cfg.CHAR_HEIGHT_SMALL : Nat)) (i16 cfg.SCREEN_WIDTH)
      (i16 (cfg.CHAR_HEIGHT_SMALL * u8 cfg.clearLineTextSize : Nat)) SSD1306_BLACK,
   .setCursor 0 (u8 ((4 + i.val) * cfg.CHAR_HEIGHT_SMALL)),
   .setTextSize (u8 cfg.TEXT_SIZE_SMALL),
   .setTextColor SSD1306_WHITE,
   .print (lines i)]

/-- Driver calls of one repaint of the debug region: the five slots in order,
then one flush. -/
def repaintEvents (cfg : Config) (lines : Fin MAX_DEBUG_LINES → CStr) : List Event :=
  slotEvents cfg lines 0 ++ slotEvents cfg lines 1 ++ slotEvents cfg lines 2 ++
    slotEvents cfg lines 3 ++ slotEvents cfg lines 4 ++ [.display]

/-! ## Concrete states used for evaluation -/

/-- A display initialized by `begin()` on the reference device, every address
acknowledging and the driver starting up. -/
def okState : State := (begin refConfig (fun _ => 0) true init).2

/-- A bus on which only the secondary address of the reference device answers. -/
def secondaryOnly (a : Nat) : Nat := if a = 0x3D then 0 else 2

/-- The state `okState` after `addDebugLine("a")` at `millis() = 200`. -/
def burstStart : State := addDebugLine refConfig (some "a".toList) 200 okState

/-- The state `burstStart` after six further appends at 201 .. 206 ms. -/
def afterBurst : State :=
  addDebugLines refConfig
    [(some "b".toList, 201), (some "c".toList, 202), (some "d".toList, 203),
     (some "e".toList, 204), (some "f".toList, 205), (some "g".toList, 206)] burstStart

/-- The state `afterBurst` after `addDebugLine("h")` at `millis() = 400`. -/
def afterLate : State := addDebugLine refConfig (some "h".toList) 400 afterBurst

/-- Six appended lines with their `millis()` values. -/
def sixCalls : List (CStr × Nat) :=
  [("a".toList, 0), ("b".toList, 10), ("c".toList, 500), ("d".toList, 510),
   ("e".toList, 520), ("f".toList, 900)]

/-- Four calls at non-decreasing `millis()` values, one of them with a null text. -/
def fourCalls : List (Option CStr × Nat) :=
  [(some "a".toList, 1000), (some "b".toList, 1100), (none, 1150), (some "c".toList, 1250)]

/-- The address 192.168.1.42. -/
def sampleIP : IPAddress := ⟨![192, 168, 1, 42]⟩

/-! ## Helper lemmas: the guarded operations on a ready display -/

theorem ready_of (st : State) (hi : isInitialized st = true) (hd : getDisplay st ≠ none) :
    Ready st := by
  simp only [isInitialized, getDisplay] at hi hd
  refine ⟨hi, ?_⟩
  cases h : st.oledDisplay <;> simp_all

theorem ready_emit (e : Event) (st : State) (h : Ready st) : Ready (emit e st) := h

theorem guard_ready (st : State) (h : Ready st) :
    (!st.displayInitialized || st.oledDisplay.isNone) = false := by
  simp [h.1, h.2]

theorem setCursor_ready (x y : Nat) (st : State) (h : Ready st) :
    setCursor x y st = emit (.setCursor (u8 x) (u8 y)) st := by
  simp [setCursor, guard_ready st h]

theorem setTextSize_ready (s : Nat) (st : State) (h : Ready st) :
    setTextSize s st = emit (.setTextSize (u8 s)) st := by
  simp [setTextSize, guard_ready st h]

theorem setTextColor_ready (c : Nat) (st : State) (h : Ready st) :
    setTextColor c st = emit (.setTextColor (u16 c)) st := by
  simp [setTextColor, guard_ready st h]

theorem printf_ready (cfg : Config) (fmt : CStr) (args : List Arg) (st : State) (h : Ready st) :
    printf cfg (some fmt) args st = emit (.print (vsnprintf cfg.float2f 128 fmt args)) st := by
  simp [printf, guard_ready st h]

theorem clearLine_ready (cfg : Config) (line ts : Nat) (st : State) (h : Ready st) :
    clearLine cfg line ts st =
      emit (.fillRect 0 (i16 (u8 line * cfg.CHAR_HEIGHT_SMALL : Nat)) (i16 cfg.SCREEN_WIDTH)
        (i16 (cfg.CHAR_HEIGHT_SMALL * u8 ts : Nat)) SSD1306_BLACK) st := by
  simp [clearLine, guard_ready st h]

theorem display_ready (st : State) (h : Ready st) : display st = emit .display st := by
  simp [display, guard_ready st h]

/-! ## Helper lemmas: formatted text -/

theorem fmtZeroPad_two : ∀ n < 100, fmtZeroPad 2 (fmtUnsigned n) = twoDigits n := by
  decide

theorem length_fmtUnsigned_u8 (n : Nat) (hn : n < 256) : (fmtUnsigned n).length ≤ 3 := by
  interval_cases n <;> decide

theorem vsnprintf_time (f2 : Nat → CStr) (a b c : Nat) (ha : a < 100) (hb : b < 100)
    (hc : c < 100) :
    vsnprintf f2 128 "%02lu:%02lu:%02lu".toList [.ulong a, .ulong b, .ulong c] =
      twoDigits a ++ ':' :: (twoDigits b ++ ':' :: twoDigits c) := by
  have e : vformat f2 "%02lu:%02lu:%02lu".toList [.ulong a, .ulong b, .ulong c] =
      fmtZeroPad 2 (fmtUnsigned a) ++ ':' :: (fmtZeroPad 2 (fmtUnsigned b) ++
        ':' :: (fmtZeroPad 2 (fmtUnsigned c) ++ [])) := rfl
  rw [vsnprintf, e, fmtZeroPad_two a ha, fmtZeroPad_two b hb, fmtZeroPad_two c hc]
  simp [twoDigits]

theorem showTime_ready (cfg : Config) (m : Nat) (st : State) (h : Ready st) :
    showTime cfg m st = { st with trace := st.trace ++
        [.setCursor 70 0, .setTextSize (u8 cfg.TEXT_SIZE_SMALL), .setTextColor SSD1306_WHITE,
         .print (vsnprintf cfg.float2f 128 "%02lu:%02lu:%02lu".toList
           [.ulong (u32 m / 1000 / 60 / 60 % 24), .ulong (u32 m / 1000 / 60 % 60),
            .ulong (u32 m / 1000 % 60)])] } := by
  unfold showTime
  rw [guard_ready st h]
  simp only [Bool.false_eq_true, if_false]
  rw [setCursor_ready _ _ _ h, setTextSize_ready _ _ (ready_emit _ _ h),
    setTextColor_ready _ _ (ready_emit _ _ (ready_emit _ _ h)),
    printf_ready _ _ _ _ (ready_emit _ _ (ready_emit _ _ (ready_emit _ _ h)))]
  simp [emit, u8, u16, SSD1306_WHITE]

theorem fmtSigned_u8 (n : Nat) : fmtSigned (u8 n : Nat) = decimal (u8 n) := by
  have : ¬ ((u8 n : Nat) : Int) < 0 := by omega
  simp [fmtSigned, this, decimal, Nat.repr, fmtUnsigned, List.asString]

theorem length_decimal_u8 (n : Nat) : (decimal (u8 n)).length ≤ 3 := by
  have h : u8 n < 256 := Nat.mod_lt _ (by norm_num)
  have := length_fmtUnsigned_u8 (u8 n) h
  simpa [decimal, Nat.repr, fmtUnsigned, List.asString] using this

theorem vsnprintf_ip (f2 : Nat → CStr) (a b c d : Nat) :
    vsnprintf f2 128 "IP: %d.%d.%d.%d".toList
      [.int (u8 a : Nat), .int (u8 b : Nat), .int (u8 c : Nat), .int (u8 d : Nat)] =
      ipText (u8 a) (u8 b) (u8 c) (u8 d) := by
  have e : vformat f2 "IP: %d.%d.%d.%d".toList
      [.int (u8 a : Nat), .int (u8 b : Nat), .int (u8 c : Nat), .int (u8 d : Nat)] =
      'I' :: 'P' :: ':' :: ' ' :: (fmtSigned (u8 a : Nat) ++ '.' :: (fmtSigned (u8 b : Nat) ++
        '.' :: (fmtSigned (u8 c : Nat) ++ '.' :: (fmtSigned (u8 d : Nat) ++ [])))) := rfl
  have la := length_decimal_u8 a
  have lb := length_decimal_u8 b
  have lc := length_decimal_u8 c
  have ld := length_decimal_u8 d
  rw [vsnprintf, e, fmtSigned_u8, fmtSigned_u8, fmtSigned_u8, fmtSigned_u8]
  have e2 : 'I' :: 'P' :: ':' :: ' ' :: (decimal (u8 a) ++ '.' :: (decimal (u8 b) ++
        '.' :: (decimal (u8 c) ++ '.' :: (decimal (u8 d) ++ [])))) =
      ipText (u8 a) (u8 b) (u8 c) (u8 d) := by
    simp [ipText]
  rw [e2]
  apply List.take_of_length_le
  simp [ipText]
  omega

theorem showIPAddress_ready (cfg : Config) (ip : IPAddress) (st : State) (hr : Ready st) :
    showIPAddress cfg ip st = { st with trace := st.trace ++
      [.fillRect 0 0 (i16 cfg.SCREEN_WIDTH)
         (i16 (cfg.CHAR_HEIGHT_SMALL * u8 cfg.clearLineTextSize : Nat)) SSD1306_BLACK,
       .setCursor 0 0, .setTextSize (u8 cfg.TEXT_SIZE_SMALL), .setTextColor SSD1306_WHITE,
       .print (ipText (ip.get 0) (ip.get 1) (ip.get 2) (ip.get 3)),
       .display] } := by
  unfold showIPAddress
  rw [guard_ready st hr]
  simp only [Bool.false_eq_true, if_false]
  rw [clearLine_ready _ _ _ _ hr, setCursor_ready _ _ _ (ready_emit _ _ hr),
    setTextSize_ready _ _ (ready_emit _ _ (ready_emit _ _ hr)),
    setTextColor_ready _ _ (ready_emit _ _ (ready_emit _ _ (ready_emit _ _ hr))),
    printf_ready _ _ _ _ (ready_emit _ _ (ready_emit _ _ (ready_emit _ _ (ready_emit _ _ hr)))),
    display_ready _ (ready_emit _ _ (ready_emit _ _ (ready_emit _ _ (ready_emit _ _
      (ready_emit _ _ hr)))))]
  simp only [IPAddress.get, vsnprintf_ip]
  simp [emit, u8, u16, i16, SSD1306_WHITE]

/-! ## Helper lemmas: the debug line buffer -/

theorem range_five : List.range MAX_DEBUG_LINES = [0, 1, 2, 3, 4] := by decide

theorem shift_eq_pushLine (lines : Fin MAX_DEBUG_LINES → CStr) (text : CStr) :
    Function.update
      ((List.range (MAX_DEBUG_LINES - 1)).foldl
        (fun (ls : Fin MAX_DEBUG_LINES → CStr) i =>
          if h : i + 1 < MAX_DEBUG_LINES then
            Function.update ls ⟨i, Nat.lt_of_succ_lt h⟩ (ls ⟨i + 1, h⟩)
          else ls)
        lines)
      ⟨MAX_DEBUG_LINES - 1, by decide⟩ text = pushLine lines text := by
  funext i
  fin_cases i <;> rfl

theorem drawSlot_ready (cfg : Config) (s : State) (hr : Ready s) (i : Nat)
    (hi : i < MAX_DEBUG_LINES) :
    (if h : i < MAX_DEBUG_LINES then
      emit (.print ((setTextColor SSD1306_WHITE (setTextSize cfg.TEXT_SIZE_SMALL
        (setCursor 0 ((4 + i) * cfg.CHAR_HEIGHT_SMALL)
          (clearLine cfg (4 + i) cfg.clearLineTextSize s)))).debugLines ⟨i, h⟩))
        (setTextColor SSD1306_WHITE (setTextSize cfg.TEXT_SIZE_SMALL
          (setCursor 0 ((4 + i) * cfg.CHAR_HEIGHT_SMALL)
            (clearLine cfg (4 + i) cfg.clearLineTextSize s))))
    else
      setTextColor SSD1306_WHITE (setTextSize cfg.TEXT_SIZE_SMALL
        (setCursor 0 ((4 + i) * cfg.CHAR_HEIGHT_SMALL)
          (clearLine cfg (4 + i) cfg.clearLineTextSize s)))) =
    { s with trace := s.trace ++ slotEvents cfg s.debugLines ⟨i, hi⟩ } := by
  rw [dif_pos hi, clearLine_ready _ _ _ _ hr, setCursor_ready _ _ _ (ready_emit _ _ hr),
    setTextSize_ready _ _ (ready_emit _ _ (ready_emit _ _ hr)),
    setTextColor_ready _ _ (ready_emit _ _ (ready_emit _ _ (ready_emit _ _ hr)))]
  simp [emit, slotEvents, u8, u16, SSD1306_WHITE]

/-- What `addDebugLine` does with a non-null text on a ready display: the ring
is always updated; the region is repainted exactly when the 32-bit difference
between `millis()` and `lastDebugDraw` is at least the interval. -/
theorem addDebugLine_ready (cfg : Config) (text : CStr) (now : Nat) (st : State)
    (h : Ready st) :
    addDebugLine cfg (some text) now st =
      if u32sub (u32 now) st.lastDebugDraw < debugDrawInterval then
        { st with debugLines := pushLine st.debugLines text }
      else
        { st with debugLines := pushLine st.debugLines text, lastDebugDraw := u32 now,
                  trace := st.trace ++ repaintEvents cfg (pushLine st.debugLines text) } := by
  unfold addDebugLine
  simp only [guard_ready st h, Option.isNone_some, Bool.or_false, Bool.false_eq_true, if_false,
    Option.getD_some, shift_eq_pushLine]
  split
  · rfl
  · rw [range_five]
    simp only [List.foldl_cons, List.foldl_nil]
    rw [drawSlot_ready cfg _ ?_ 0 (by decide), drawSlot_ready cfg _ ?_ 1 (by decide),
      drawSlot_ready cfg _ ?_ 2 (by decide), drawSlot_ready cfg _ ?_ 3 (by decide),
      drawSlot_ready cfg _ ?_ 4 (by decide)]
    all_goals first | exact h | skip
    simp [emit, repaintEvents]
    rfl

theorem addDebugLine_none (cfg : Config) (now : Nat) (st : State) :
    addDebugLine cfg none now st = st := by
  simp [addDebugLine]

theorem addDebugLine_keeps_ready (cfg : Config) (text : Option CStr) (now : Nat) (st : State)
    (h : Ready st) : Ready (addDebugLine cfg text now st) := by
  cases text with
  | none => rw [addDebugLine_none]; exact h
  | some t =>
    rw [addDebugLine_ready cfg t now st h]
    split <;> exact h

theorem addDebugLines_keeps_ready (cfg : Config) (calls : List (Option CStr × Nat)) :
    ∀ st : State, Ready st → Ready (addDebugLines cfg calls st) := by
  induction calls with
  | nil => intro st h; exact h
  | cons c calls ih =>
    intro st h
    exact ih _ (addDebugLine_keeps_ready cfg _ _ st h)

theorem addDebugLine_debugLines (cfg : Config) (text : CStr) (now : Nat) (st : State)
    (h : Ready st) :
    (addDebugLine cfg (some text) now st).debugLines = pushLine st.debugLines text := by
  rw [addDebugLine_ready cfg text now st h]
  split <;> rfl

theorem ofFn_pushLine (lines : Fin MAX_DEBUG_LINES → CStr) (text : CStr) :
    List.ofFn (pushLine lines text) = (List.ofFn lines).tail ++ [text] := by
  rfl

theorem foldl_window (xs : List CStr) : ∀ l : List CStr, l.length = MAX_DEBUG_LINES →
    xs.foldl (fun r x => r.tail ++ [x]) l = (l ++ xs).drop xs.length := by
  induction xs with
  | nil => intro l _; simp
  | cons x xs ih =>
    intro l hl
    rw [List.foldl_cons, ih _ (by simp [hl])]
    cases l with
    | nil => simp at hl
    | cons a l => simp

theorem ringList_addDebugLines (cfg : Config) (calls : List (CStr × Nat)) :
    ∀ st : State, Ready st →
      ringList (addDebugLines cfg (calls.map fun c => (some c.1, c.2)) st) =
        (calls.map Prod.fst).foldl (fun r x => r.tail ++ [x]) (ringList st) := by
  induction calls with
  | nil => intro st _; rfl
  | cons c calls ih =>
    intro st h
    simp only [addDebugLines, List.map_cons, List.foldl_cons] at ih ⊢
    rw [ih _ (addDebugLine_keeps_ready cfg _ _ st h)]
    simp only [ringList, addDebugLine_debugLines cfg c.1 c.2 st h, ofFn_pushLine]

theorem u32sub_of_le (a b : Nat) (hab : b ≤ a) (ha : a < 4294967296) :
    u32sub (u32 a) b = a - b := by
  unfold u32sub u32
  omega

theorem flushes_repaintEvents (cfg : Config) (lines : Fin MAX_DEBUG_LINES → CStr) :
    flushes (repaintEvents cfg lines) = 1 := by
  simp [flushes, repaintEvents, slotEvents]

theorem printed_repaintEvents (cfg : Config) (lines : Fin MAX_DEBUG_LINES → CStr) :
    printed (repaintEvents cfg lines) = List.ofFn lines := by
  rfl

/-- What one non-null append does to the quantities the throttle depends on. -/
theorem addDebugLine_throttle (cfg : Config) (text : CStr) (now : Nat) (st : State)
    (h : Ready st) :
    (u32sub (u32 now) st.lastDebugDraw < debugDrawInterval →
      (addDebugLine cfg (some text) now st).trace = st.trace ∧
      (addDebugLine cfg (some text) now st).lastDebugDraw = st.lastDebugDraw) ∧
    (debugDrawInterval ≤ u32sub (u32 now) st.lastDebugDraw →
      (addDebugLine cfg (some text) now st).trace =
        st.trace ++ repaintEvents cfg (pushLine st.debugLines text) ∧
      (addDebugLine cfg (some text) now st).lastDebugDraw = u32 now) := by
  rw [addDebugLine_ready cfg text now st h]
  constructor
  · intro hlt
    rw [if_pos hlt]
    exact ⟨rfl, rfl⟩
  · intro hge
    rw [if_neg (by omega)]
    exact ⟨rfl, rfl⟩

/-- Once `lastDebugDraw` is not ahead of any later timestamp, repaints are
spaced by the interval, and the first of them is at least the interval after
`lastDebugDraw`. -/
theorem repaintTimes_after (cfg : Config) (calls : List (Option CStr × Nat)) :
    ∀ st : State, Ready st →
      (∀ c ∈ calls, st.lastDebugDraw ≤ c.2 ∧ c.2 < 4294967296) →
      (calls.map Prod.snd).Pairwise (fun a b => a ≤ b) →
      (repaintTimes cfg calls st).Pairwise (fun a b => a + debugDrawInterval ≤ b) ∧
      ∀ t ∈ repaintTimes cfg calls st, st.lastDebugDraw + debugDrawInterval ≤ t := by
  induction calls with
  | nil => intro st _ _ _; simp [repaintTimes]
  | cons c calls ih =>
    intro st hr hb hs
    obtain ⟨text, now⟩ := c
    have hnow := hb (text, now) (List.mem_cons_self _ _)
    simp only [List.map_cons, List.pairwise_cons] at hs
    have hrest : ∀ c ∈ calls, st.lastDebugDraw ≤ c.2 ∧ c.2 < 4294967296 :=
      fun c hc => hb c (List.mem_cons_of_mem _ hc)
    cases text with
    | none =>
      simp only [repaintTimes, addDebugLine_none, lt_irrefl, if_false]
      exact ih st hr hrest hs.2
    | some t =>
      have he : u32sub (u32 now) st.lastDebugDraw = now - st.lastDebugDraw :=
        u32sub_of_le now _ hnow.1 hnow.2
      have hu : u32 now = now := Nat.mod_eq_of_lt hnow.2
      by_cases hlt : u32sub (u32 now) st.lastDebugDraw < debugDrawInterval
      · obtain ⟨e1, e2⟩ := (addDebugLine_throttle cfg t now st hr).1 hlt
        have := ih (addDebugLine cfg (some t) now st) (addDebugLine_keeps_ready cfg _ _ st hr)
          (by rw [e2]; exact hrest) hs.2
        simp only [repaintTimes, e1, lt_irrefl, if_false]
        rw [e2] at this
        exact this
      · obtain ⟨e1, e2⟩ := (addDebugLine_throttle cfg t now st hr).2 (by omega)
        have hrest2 : ∀ c ∈ calls,
            (addDebugLine cfg (some t) now st).lastDebugDraw ≤ c.2 ∧ c.2 < 4294967296 := by
          intro c hc
          rw [e2, hu]
          exact ⟨hs.1 c.2 (List.mem_map_of_mem _ hc), (hrest c hc).2⟩
        have := ih (addDebugLine cfg (some t) now st) (addDebugLine_keeps_ready cfg _ _ st hr)
          hrest2 hs.2
        rw [e2, hu] at this
        have hfl : flushes st.trace < flushes (addDebugLine cfg (some t) now st).trace := by
          rw [e1]
          simp [flushes, repaintEvents, slotEvents]
        simp only [repaintTimes, hfl, if_true, List.pairwise_cons, List.mem_cons]
        have hge : st.lastDebugDraw + debugDrawInterval ≤ now := by
          rw [he] at hlt
          omega
        refine ⟨⟨fun b hb => this.2 b hb, this.1⟩, ?_⟩
        intro b hb
        rcases hb with rfl | hb
        · exact hge
        · have := this.2 b hb
          omega

theorem repaintTimes_pairwise (cfg : Config) (calls : List (Option CStr × Nat)) :
    ∀ st : State, Ready st →
      (∀ c ∈ calls, c.2 < 4294967296) →
      (calls.map Prod.snd).Pairwise (fun a b => a ≤ b) →
      (repaintTimes cfg calls st).Pairwise (fun a b => a + debugDrawInterval ≤ b) := by
  induction calls with
  | nil => intro st _ _ _; simp [repaintTimes]
  | cons c calls ih =>
    intro st hr hb hs
    obtain ⟨text, now⟩ := c
    have hnow := hb (text, now) (List.mem_cons_self _ _)
    simp only [List.map_cons, List.pairwise_cons] at hs
    have hrest : ∀ c ∈ calls, c.2 < 4294967296 :=
      fun c hc => hb c (List.mem_cons_of_mem _ hc)
    have hnext := ih (addDebugLine cfg text now st) (addDebugLine_keeps_ready cfg _ _ st hr)
      hrest hs.2
    by_cases hfl : flushes st.trace < flushes (addDebugLine cfg text now st).trace
    · simp only [repaintTimes, hfl, if_true, List.pairwise_cons]
      refine ⟨?_, hnext⟩
      cases text with
      | none => simp [addDebugLine_none] at hfl
      | some t =>
        have hu : u32 now = now := Nat.mod_eq_of_lt hnow
        have hge : debugDrawInterval ≤ u32sub (u32 now) st.lastDebugDraw := by
          by_contra hlt
          have e1 := ((addDebugLine_throttle cfg t now st hr).1 (by omega)).1
          rw [e1] at hfl
          exact lt_irrefl _ hfl
        have e2 := ((addDebugLine_throttle cfg t now st hr).2 hge).2
        have hrest2 : ∀ c ∈ calls,
            (addDebugLine cfg (some t) now st).lastDebugDraw ≤ c.2 ∧ c.2 < 4294967296 := by
          intro c hc
          rw [e2, hu]
          exact ⟨hs.1 c.2 (List.mem_map_of_mem _ hc), hrest c hc⟩
        have := (repaintTimes_after cfg calls (addDebugLine cfg (some t) now st)
          (addDebugLine_keeps_ready cfg _ _ st hr) hrest2 hs.2).2
        rw [e2, hu] at this
        exact this
    · simp only [repaintTimes, hfl, if_false]
      exact hnext

theorem repaintTimes_mem (cfg : Config) (calls : List (Option CStr × Nat)) :
    ∀ st : State, ∀ t ∈ repaintTimes cfg calls st, t ∈ calls.map Prod.snd := by
  induction calls with
  | nil => intro st t ht; simp [repaintTimes] at ht
  | cons c calls ih =>
    intro st t ht
    simp only [repaintTimes] at ht
    split at ht
    · rcases List.mem_cons.1 ht with rfl | h
      · simp
      · exact List.mem_cons_of_mem _ (ih _ _ h)
    · exact List.mem_cons_of_mem _ (ih _ _ ht)

theorem flushes_addDebugLines (cfg : Config) (calls : List (Option CStr × Nat)) :
    ∀ st : State, Ready st →
      flushes (addDebugLines cfg calls st).trace =
        flushes st.trace + (repaintTimes cfg calls st).length := by
  induction calls with
  | nil => intro st _; simp [addDebugLines, repaintTimes]
  | cons c calls ih =>
    intro st hr
    obtain ⟨text, now⟩ := c
    have hnext := ih (addDebugLine cfg text now st) (addDebugLine_keeps_ready cfg _ _ st hr)
    simp only [addDebugLines, List.foldl_cons] at hnext ⊢
    rw [hnext]
    cases text with
    | none => simp [repaintTimes, addDebugLine_none]
    | some t =>
      by_cases hlt : u32sub (u32 now) st.lastDebugDraw < debugDrawInterval
      · have e1 := ((addDebugLine_throttle cfg t now st hr).1 hlt).1
        simp [repaintTimes, e1]
      · have e1 := ((addDebugLine_throttle cfg t now st hr).2 (by omega)).1
        have hfl : flushes st.trace < flushes (addDebugLine cfg (some t) now st).trace := by
          rw [e1]
          simp [flushes, repaintEvents, slotEvents]
        simp only [repaintTimes, hfl, if_true, List.length_cons]
        rw [e1]
        simp [flushes, repaintEvents, slotEvents]
        omega

/-! ## Initialization (claims C1, C2, C3) -/

/-- Claim C1.  `begin()` probes the primary address first.  If the primary
acknowledges, it becomes the stored address and it is the only address probed
(the secondary is never probed).  If the primary does not acknowledge and the
secondary does, exactly the primary and then the secondary are probed, the
secondary becomes the stored address, and when the driver start-up succeeds
`begin()` returns true, `isInitialized()` is true and `getAddress()` is the
secondary address. -/
theorem begin_selects_first_responding_address (cfg : Config) (wire : Nat → Nat)
    (startup : Bool) (st : State) :
    (wire (u8 cfg.OLED_ADDR_PRIMARY) = 0 →
      getAddress (begin cfg wire startup st).2 = u8 cfg.OLED_ADDR_PRIMARY ∧
      probes (begin cfg wire startup st).2.trace = probes st.trace ++ [u8 cfg.OLED_ADDR_PRIMARY] ∧
      (startup = true → (begin cfg wire startup st).1 = true ∧
        isInitialized (begin cfg wire startup st).2 = true)) ∧
    (wire (u8 cfg.OLED_ADDR_PRIMARY) ≠ 0 → wire (u8 cfg.OLED_ADDR_SECONDARY) = 0 →
      getAddress (begin cfg wire startup st).2 = u8 cfg.OLED_ADDR_SECONDARY ∧
      probes (begin cfg wire startup st).2.trace =
        probes st.trace ++ [u8 cfg.OLED_ADDR_PRIMARY, u8 cfg.OLED_ADDR_SECONDARY] ∧
      (startup = true → (begin cfg wire startup st).1 = true ∧
        isInitialized (begin cfg wire startup st).2 = true)) := by
  constructor
  · intro hp
    cases startup <;> simp [begin, testAddress, emit, hp, getAddress, probes, isInitialized]
  · intro hp hs
    cases startup <;> simp [begin, testAddress, emit, hp, hs, getAddress, probes, isInitialized]

/-- Claim C1, evaluated on the reference device with only the secondary address
answering and the driver starting up. -/
theorem begin_selects_first_responding_address_witness :
    secondaryOnly (u8 refConfig.OLED_ADDR_PRIMARY) ≠ 0 ∧
    secondaryOnly (u8 refConfig.OLED_ADDR_SECONDARY) = 0 ∧
    getAddress (begin refConfig secondaryOnly true init).2 = 0x3D ∧
    probes (begin refConfig secondaryOnly true init).2.trace = [0x3C, 0x3D] ∧
    (begin refConfig secondaryOnly true init).1 = true ∧
    isInitialized (begin refConfig secondaryOnly true init).2 = true :=
  have h := (begin_selects_first_responding_address refConfig secondaryOnly true init).2
    (by decide) (by decide)
  ⟨by decide, by decide, h.1, h.2.1, (h.2.2 rfl).1, (h.2.2 rfl).2⟩

/-- Claim C2.  If neither candidate address acknowledges, `begin()` on an
uninitialized manager returns false, `isInitialized()` is still false, the
handle, the stored address and the debug statics are unchanged and no driver
object is allocated; a later `begin()` in which a candidate address acknowledges
and the driver start-up succeeds returns true with `isInitialized()` true. -/
theorem begin_without_response_fails_cleanly (cfg : Config) (wire : Nat → Nat)
    (startup : Bool) (st : State)
    (hu : isInitialized st = false)
    (hp : wire (u8 cfg.OLED_ADDR_PRIMARY) ≠ 0) (hs : wire (u8 cfg.OLED_ADDR_SECONDARY) ≠ 0) :
    (begin cfg wire startup st).1 = false ∧
    isInitialized (begin cfg wire startup st).2 = false ∧
    getDisplay (begin cfg wire startup st).2 = getDisplay st ∧
    getAddress (begin cfg wire startup st).2 = getAddress st ∧
    (begin cfg wire startup st).2.debugLines = st.debugLines ∧
    (begin cfg wire startup st).2.lastDebugDraw = st.lastDebugDraw ∧
    allocations (begin cfg wire startup st).2.trace = allocations st.trace ∧
    ∀ wire2 : Nat → Nat,
      (wire2 (u8 cfg.OLED_ADDR_PRIMARY) = 0 ∨ wire2 (u8 cfg.OLED_ADDR_SECONDARY) = 0) →
      (begin cfg wire2 true (begin cfg wire startup st).2).1 = true ∧
      isInitialized (begin cfg wire2 true (begin cfg wire startup st).2).2 = true := by
  simp only [isInitialized] at hu
  refine ⟨?_, ?_, ?_, ?_, ?_, ?_, ?_, ?_⟩
  all_goals try (simp [begin, testAddress, emit, hp, hs, hu, getAddress, getDisplay,
    isInitialized, allocations]; done)
  intro wire2 h2
  by_cases h : wire2 (u8 cfg.OLED_ADDR_PRIMARY) = 0
  · simp [begin, testAddress, emit, h, isInitialized]
  · have h3 : wire2 (u8 cfg.OLED_ADDR_SECONDARY) = 0 := by tauto
    simp [begin, testAddress, emit, h, h3, isInitialized]

/-- Claim C2, evaluated on a freshly constructed manager of the reference device
with a silent bus, followed by a `begin()` with only the secondary answering. -/
theorem begin_without_response_fails_cleanly_witness :
    isInitialized init = false ∧
    (fun _ : Nat => 2) (u8 refConfig.OLED_ADDR_PRIMARY) ≠ 0 ∧
    (fun _ : Nat => 2) (u8 refConfig.OLED_ADDR_SECONDARY) ≠ 0 ∧
    (begin refConfig (fun _ => 2) true init).1 = false ∧
    isInitialized (begin refConfig (fun _ => 2) true init).2 = false ∧
    getDisplay (begin refConfig (fun _ => 2) true init).2 = none ∧
    (begin refConfig secondaryOnly true (begin refConfig (fun _ => 2) true init).2).1 = true :=
  have h := begin_without_response_fails_cleanly refConfig (fun _ => 2) true init
    (by decide) (by decide) (by decide)
  ⟨by decide, by decide, by decide, h.1, h.2.1, h.2.2.1,
    (h.2.2.2.2.2.2.2 secondaryOnly (Or.inr (by decide))).1⟩

/-- Claim C3, evaluated at its failing input: on a manager already initialized
by a successful `begin()`, a second `begin()` (and likewise `begin(address)`)
whose handshake succeeds and whose driver start-up fails returns false and
leaves the handle absent, but `isInitialized()` still answers true. -/
theorem begin_startup_failure_keeps_initialized_flag :
    (begin refConfig (fun _ => 0) true init).1 = true ∧
    isInitialized okState = true ∧
    (begin refConfig (fun _ => 0) false okState).1 = false ∧
    getDisplay (begin refConfig (fun _ => 0) false okState).2 = none ∧
    isInitialized (begin refConfig (fun _ => 0) false okState).2 = true ∧
    (beginAddress refConfig (fun _ => 0) false 0x3C okState).1 = false ∧
    getDisplay (beginAddress refConfig (fun _ => 0) false 0x3C okState).2 = none ∧
    isInitialized (beginAddress refConfig (fun _ => 0) false 0x3C okState).2 = true := by
  decide

/-! ## The guard (claim C4) -/

/-- Claim C4.  When `isInitialized()` is false or the handle is absent, every
operation other than the initializers, with any arguments, returns the state it
was given: no driver call is added to the trace, and the members, the debug
ring and the last-repaint timestamp are unchanged. -/
theorem call_without_display_is_noop (cfg : Config) (c : Call) (st : State)
    (h : isInitialized st = false ∨ getDisplay st = none) :
    c.run cfg st = st := by
  simp only [isInitialized, getDisplay] at h
  cases c <;> rcases h with h | h <;>
    simp [Call.run, OLED.clear, OLED.display, OLED.setBrightness, OLED.setInverted, OLED.powerOff,
      OLED.powerOn, OLED.setCursor, OLED.setTextSize, OLED.setTextColor, OLED.print, OLED.println,
      OLED.printf, OLED.showInt, OLED.showFloat, OLED.showBool, OLED.showString, OLED.showHeader,
      OLED.showStatus, OLED.showTime, OLED.drawLine, OLED.drawRect, OLED.fillRect,
      OLED.drawCircle, OLED.fillCircle, OLED.clearLine, OLED.showIPAddress, OLED.addDebugLine, h]

/-- Claim C4, evaluated for `addDebugLine("x")` on a freshly constructed manager. -/
theorem call_without_display_is_noop_witness :
    (isInitialized init = false ∨ getDisplay init = none) ∧
    (Call.addDebugLine (some "x".toList) 1000).run refConfig init = init :=
  ⟨Or.inl rfl, call_without_display_is_noop refConfig _ init (Or.inl rfl)⟩

/-! ## The debug ring and its throttle (claims C5 to C8) -/

/-- Claim C5.  After more than 5 non-null lines have been passed one by one to
`addDebugLine` on an initialized display, at any timestamps, the debug ring
holds exactly the last 5 lines of the sequence, slot 0 the oldest of them and
slot 4 the newest. -/
theorem debug_ring_keeps_last_five (cfg : Config) (st : State) (calls : List (CStr × Nat))
    (hi : isInitialized st = true) (hd : getDisplay st ≠ none)
    (hn : MAX_DEBUG_LINES < calls.length) :
    ringList (addDebugLines cfg (calls.map fun c => (some c.1, c.2)) st) =
      (calls.map Prod.fst).drop (calls.length - MAX_DEBUG_LINES) := by
  have hr := ready_of st hi hd
  rw [ringList_addDebugLines cfg calls st hr, foldl_window _ _ (by simp [ringList])]
  rw [List.drop_append_eq_append_drop]
  have h5 : MAX_DEBUG_LINES = 5 := rfl
  simp [ringList]
  omega

/-- Claim C5, evaluated for six lines on the reference device. -/
theorem debug_ring_keeps_last_five_witness :
    isInitialized okState = true ∧ getDisplay okState ≠ none ∧
    MAX_DEBUG_LINES < sixCalls.length ∧
    ringList (addDebugLines refConfig (sixCalls.map fun c => (some c.1, c.2)) okState) =
      (sixCalls.map Prod.fst).drop (sixCalls.length - MAX_DEBUG_LINES) :=
  ⟨by decide, by decide, by decide,
   debug_ring_keeps_last_five refConfig okState sixCalls (by decide) (by decide) (by decide)⟩

/-- Claim C6.  For a sequence of `addDebugLine` calls on an initialized display
whose `millis()` values are non-decreasing 32-bit values, any two calls that
repaint the debug region are at least 200 ms apart; every repaint is one flush;
and if all calls lie less than 200 ms apart, at most one of them repaints. -/
theorem debug_repaints_are_throttled (cfg : Config) (st : State)
    (calls : List (Option CStr × Nat))
    (hi : isInitialized st = true) (hd : getDisplay st ≠ none)
    (hb : ∀ c ∈ calls, c.2 < 4294967296)
    (hs : (calls.map Prod.snd).Pairwise (fun a b => a ≤ b)) :
    (repaintTimes cfg calls st).Pairwise (fun a b => a + debugDrawInterval ≤ b) ∧
    flushes (addDebugLines cfg calls st).trace =
      flushes st.trace + (repaintTimes cfg calls st).length ∧
    ((∀ a ∈ calls, ∀ b ∈ calls, b.2 < a.2 + debugDrawInterval) →
      (repaintTimes cfg calls st).length ≤ 1) := by
  have hr := ready_of st hi hd
  have hp := repaintTimes_pairwise cfg calls st hr hb hs
  refine ⟨hp, flushes_addDebugLines cfg calls st hr, ?_⟩
  intro hw
  match hl : repaintTimes cfg calls st with
  | [] => simp
  | [_] => simp
  | a :: b :: rest =>
    exfalso
    rw [hl] at hp
    have hab : a + debugDrawInterval ≤ b := (List.pairwise_cons.1 hp).1 b (by simp)
    have ha : a ∈ calls.map Prod.snd := repaintTimes_mem cfg calls st a (by rw [hl]; simp)
    have hb2 : b ∈ calls.map Prod.snd := repaintTimes_mem cfg calls st b (by rw [hl]; simp)
    obtain ⟨ca, hca, rfl⟩ := List.mem_map.1 ha
    obtain ⟨cb, hcb, rfl⟩ := List.mem_map.1 hb2
    have := hw ca hca cb hcb
    omega

/-- Claim C6, evaluated for four calls at 1000, 1100, 1150 and 1250 ms on the
reference device: the calls at 1000 and 1250 repaint. -/
theorem debug_repaints_are_throttled_witness :
    isInitialized okState = true ∧ getDisplay okState ≠ none ∧
    (∀ c ∈ fourCalls, c.2 < 4294967296) ∧
    (fourCalls.map Prod.snd).Pairwise (fun a b => a ≤ b) ∧
    repaintTimes refConfig fourCalls okState = [1000, 1250] ∧
    (repaintTimes refConfig fourCalls okState).Pairwise (fun a b => a + debugDrawInterval ≤ b) :=
  ⟨by decide, by decide, by decide, by decide, by decide,
   (debug_repaints_are_throttled refConfig okState fourCalls (by decide) (by decide)
     (by decide) (by decide)).1⟩

/-- Claim C7 as stated fails: on the reference device a repaint happens at
200 ms, the lines b, c, d, e, f, g are appended at 201 .. 206 ms without a
repaint, and the append of h at 400 ms (200 ms after the previous repaint)
repaints; that repaint prints d, e, f, g, h, so the line b, appended since the
previous repaint, is not among the lines it prints. -/
theorem late_repaint_omits_evicted_line :
    isInitialized burstStart = true ∧ getDisplay burstStart ≠ none ∧
    flushes okState.trace = 0 ∧ flushes burstStart.trace = 1 ∧
    burstStart.lastDebugDraw = 200 ∧
    flushes afterBurst.trace = 1 ∧ afterBurst.lastDebugDraw = 200 ∧
    flushes afterLate.trace = 2 ∧
    printed (afterLate.trace.drop afterBurst.trace.length) =
      ["d".toList, "e".toList, "f".toList, "g".toList, "h".toList] ∧
    "b".toList ∉ printed (afterLate.trace.drop afterBurst.trace.length) := by
  decide

/-- Claim C7, amended.  Take any appends `calls` on an initialized display and a
further append of `text` whose `millis()` value is a 32-bit value at least
200 ms after the last repaint.  That append repaints (one more flush), and the
lines the repaint prints are, in order, the 5 most recent entries of the ring
contents followed by all appended lines; so when at most 5 lines were appended
(`calls` and `text` together) every one of them is printed, including those
recorded by throttled appends. -/
theorem late_append_repaints_ring (cfg : Config) (st : State) (calls : List (CStr × Nat))
    (text : CStr) (now : Nat)
    (hi : isInitialized st = true) (hd : getDisplay st ≠ none)
    (hnow : now < 4294967296)
    (hlate : (addDebugLines cfg (calls.map fun c => (some c.1, c.2)) st).lastDebugDraw
      + debugDrawInterval ≤ now) :
    flushes (addDebugLine cfg (some text) now
        (addDebugLines cfg (calls.map fun c => (some c.1, c.2)) st)).trace =
      flushes (addDebugLines cfg (calls.map fun c => (some c.1, c.2)) st).trace + 1 ∧
    printed ((addDebugLine cfg (some text) now
        (addDebugLines cfg (calls.map fun c => (some c.1, c.2)) st)).trace.drop
        (addDebugLines cfg (calls.map fun c => (some c.1, c.2)) st).trace.length) =
      (ringList st ++ calls.map Prod.fst ++ [text]).drop (calls.length + 1) ∧
    (calls.length + 1 ≤ MAX_DEBUG_LINES → ∀ l ∈ calls.map Prod.fst ++ [text],
      l ∈ printed ((addDebugLine cfg (some text) now
        (addDebugLines cfg (calls.map fun c => (some c.1, c.2)) st)).trace.drop
        (addDebugLines cfg (calls.map fun c => (some c.1, c.2)) st).trace.length)) := by
  have hr := ready_of st hi hd
  have hr1 : Ready (addDebugLines cfg (calls.map fun c => (some c.1, c.2)) st) :=
    addDebugLines_keeps_ready cfg _ st hr
  have hring := ringList_addDebugLines cfg calls st hr
  rw [foldl_window _ _ (by simp [ringList])] at hring
  generalize addDebugLines cfg (calls.map fun c => (some c.1, c.2)) st = s1 at *
  have hge : debugDrawInterval ≤ u32sub (u32 now) s1.lastDebugDraw := by
    rw [u32sub_of_le now _ (by omega) hnow]
    omega
  obtain ⟨e1, _⟩ := (addDebugLine_throttle cfg text now s1 hr1).2 hge
  have hp : printed ((addDebugLine cfg (some text) now s1).trace.drop s1.trace.length) =
      (ringList st ++ calls.map Prod.fst ++ [text]).drop (calls.length + 1) := by
    simp only [ringList] at hring
    rw [e1, List.drop_left, printed_repaintEvents, ofFn_pushLine, hring, List.tail_drop,
      List.length_map]
    symm
    apply List.drop_append_of_le_length
    simp [ringList]
  refine ⟨?_, hp, ?_⟩
  · rw [e1]
    simp [flushes, repaintEvents, slotEvents]
  · intro hle l hl
    rw [hp]
    have h5 : MAX_DEBUG_LINES = 5 := rfl
    have hlen : (ringList st).length = 5 := by simp [ringList]
    rw [List.append_assoc, List.drop_append_eq_append_drop]
    apply List.mem_append_right
    have : calls.length + 1 - (ringList st).length = 0 := by omega
    rw [this]
    simpa using hl

/-- Claim C7 amended, evaluated on the reference device: after the throttled
appends of a and b at 10 and 20 ms, the append of c at 300 ms repaints and
prints all three lines. -/
theorem late_append_repaints_ring_witness :
    isInitialized okState = true ∧ getDisplay okState ≠ none ∧
    (300 : Nat) < 4294967296 ∧
    (addDebugLines refConfig
      ([("a".toList, 10), ("b".toList, 20)].map fun c => (some c.1, c.2)) okState).lastDebugDraw
      + debugDrawInterval ≤ 300 ∧
    printed ((addDebugLine refConfig (some "c".toList) 300
        (addDebugLines refConfig
          ([("a".toList, 10), ("b".toList, 20)].map fun c => (some c.1, c.2)) okState)).trace.drop
        (addDebugLines refConfig
          ([("a".toList, 10), ("b".toList, 20)].map fun c => (some c.1, c.2))
          okState).trace.length) =
      (ringList okState ++ [("a".toList, 10), ("b".toList, 20)].map Prod.fst ++
        ["c".toList]).drop 3 :=
  ⟨by decide, by decide, by decide, by decide,
   (late_append_repaints_ring refConfig okState [("a".toList, 10), ("b".toList, 20)]
     "c".toList 300 (by decide) (by decide) (by decide) (by decide)).2.1⟩

/-- Claim C8, evaluated at its failing input: on the reference device (rows of
8 pixels, canvas 64 pixels high) a repainting `addDebugLine("x")` clears and
draws the rows at y = 32, 40, 48, 56 and 64, one flush following.  Ring slot 4,
the newest line, gets the cursor y = 64, which is not below the canvas height,
and the row at y = 24 is neither cleared nor drawn. -/
theorem debug_repaint_draws_rows_4_to_8 :
    (addDebugLine refConfig (some "x".toList) 200 okState).trace.drop okState.trace.length =
      [.fillRect 0 32 128 8 SSD1306_BLACK, .setCursor 0 32, .setTextSize 1, .setTextColor 1,
         .print [],
       .fillRect 0 40 128 8 SSD1306_BLACK, .setCursor 0 40, .setTextSize 1, .setTextColor 1,
         .print [],
       .fillRect 0 48 128 8 SSD1306_BLACK, .setCursor 0 48, .setTextSize 1, .setTextColor 1,
         .print [],
       .fillRect 0 56 128 8 SSD1306_BLACK, .setCursor 0 56, .setTextSize 1, .setTextColor 1,
         .print [],
       .fillRect 0 64 128 8 SSD1306_BLACK, .setCursor 0 64, .setTextSize 1, .setTextColor 1,
         .print "x".toList,
       .display] ∧
    ¬ (64 : Int) < refConfig.SCREEN_HEIGHT := by
  decide

/-! ## Uptime clock and address banner (claims C9, C10) -/

/-- Claim C9.  On an initialized display, for every 32-bit millisecond count
`m`, `showTime(m)` issues exactly: cursor to (70,0), small text size, white
colour, and a print of the 8-character text `HH:MM:SS` with
`SS = (m / 1000) mod 60`, `MM = (m / 60000) mod 60`, `HH = (m / 3600000) mod 24`,
each as two decimal digits; nothing is cleared.  `showTime(90061000)` prints
`01:01:01`. -/
theorem showTime_prints_uptime (cfg : Config) (st : State)
    (hi : isInitialized st = true) (hd : getDisplay st ≠ none) :
    (∀ m, m < 4294967296 →
      showTime cfg m st = { st with trace := st.trace ++
        [.setCursor 70 0, .setTextSize (u8 cfg.TEXT_SIZE_SMALL), .setTextColor SSD1306_WHITE,
         .print (uptimeText m)] } ∧ (uptimeText m).length = 8) ∧
    showTime cfg 90061000 st = { st with trace := st.trace ++
        [.setCursor 70 0, .setTextSize (u8 cfg.TEXT_SIZE_SMALL), .setTextColor SSD1306_WHITE,
         .print "01:01:01".toList] } := by
  have hr := ready_of st hi hd
  have key : ∀ m, m < 4294967296 →
      showTime cfg m st = { st with trace := st.trace ++
        [.setCursor 70 0, .setTextSize (u8 cfg.TEXT_SIZE_SMALL), .setTextColor SSD1306_WHITE,
         .print (uptimeText m)] } := by
    intro m hm
    have e0 : u32 m = m := Nat.mod_eq_of_lt hm
    have e1 : m / 1000 / 60 / 60 = m / 3600000 := by omega
    have e2 : m / 1000 / 60 = m / 60000 := by omega
    rw [showTime_ready cfg m st hr, e0, vsnprintf_time _ _ _ _ (by omega) (by omega) (by omega),
      e1, e2, uptimeText]
  refine ⟨fun m hm => ⟨key m hm, by simp [uptimeText, twoDigits]⟩, ?_⟩
  rw [key 90061000 (by norm_num)]
  have : uptimeText 90061000 = "01:01:01".toList := by decide
  rw [this]

/-- Claim C9, evaluated for 3723004 ms (01:02:03) on the reference device. -/
theorem showTime_prints_uptime_witness :
    isInitialized okState = true ∧ getDisplay okState ≠ none ∧
    printed ((showTime refConfig 3723004 okState).trace.drop okState.trace.length) =
      ["01:02:03".toList] :=
  ⟨by decide, by decide, by
    rw [((showTime_prints_uptime refConfig okState (by decide) (by decide)).1 3723004
      (by decide)).1]
    decide⟩

/-- Claim C10.  On an initialized display, for every address, `showIPAddress`
issues exactly: a black rectangle over row 0, cursor to (0,0), small text size,
white colour, a print of `IP: a.b.c.d` with the four octets in unpadded
decimal, and one flush; the members, the debug ring and the last-repaint
timestamp are unchanged and play no part.  For 192.168.1.42 the text is
`IP: 192.168.1.42`. -/
theorem showIPAddress_prints_banner (cfg : Config) (ip : IPAddress) (st : State)
    (hi : isInitialized st = true) (hd : getDisplay st ≠ none) :
    showIPAddress cfg ip st = { st with trace := st.trace ++
      [.fillRect 0 0 (i16 cfg.SCREEN_WIDTH)
         (i16 (cfg.CHAR_HEIGHT_SMALL * u8 cfg.clearLineTextSize : Nat)) SSD1306_BLACK,
       .setCursor 0 0, .setTextSize (u8 cfg.TEXT_SIZE_SMALL), .setTextColor SSD1306_WHITE,
       .print (ipText (ip.get 0) (ip.get 1) (ip.get 2) (ip.get 3)),
       .display] } ∧
    showIPAddress cfg sampleIP st = { st with trace := st.trace ++
      [.fillRect 0 0 (i16 cfg.SCREEN_WIDTH)
         (i16 (cfg.CHAR_HEIGHT_SMALL * u8 cfg.clearLineTextSize : Nat)) SSD1306_BLACK,
       .setCursor 0 0, .setTextSize (u8 cfg.TEXT_SIZE_SMALL), .setTextColor SSD1306_WHITE,
       .print "IP: 192.168.1.42".toList,
       .display] } := by
  have hr := ready_of st hi hd
  refine ⟨showIPAddress_ready cfg ip st hr, ?_⟩
  rw [showIPAddress_ready cfg sampleIP st hr]
  have : ipText (sampleIP.get 0) (sampleIP.get 1) (sampleIP.get 2) (sampleIP.get 3) =
      "IP: 192.168.1.42".toList := by decide
  rw [this]

/-- Claim C10, evaluated for 10.0.0.255 on the reference device. -/
theorem showIPAddress_prints_banner_witness :
    isInitialized okState = true ∧ getDisplay okState ≠ none ∧
    printed ((showIPAddress refConfig ⟨![10, 0, 0, 255]⟩ okState).trace.drop
      okState.trace.length) = ["IP: 10.0.0.255".toList] ∧
    flushes (showIPAddress refConfig ⟨![10, 0, 0, 255]⟩ okState).trace = 1 :=
  ⟨by decide, by decide, by
    rw [(showIPAddress_prints_banner refConfig ⟨![10, 0, 0, 255]⟩ okState (by decide)
      (by decide)).1]
    decide, by
    rw [(showIPAddress_prints_banner refConfig ⟨![10, 0, 0, 255]⟩ okState (by decide)
      (by decide)).1]
    decide⟩

end OLED
